import Mathlib

/-!
# Shallow embedding of `bulldozer/signals.go`

This file embeds the signal-evaluation engine of the repository
(`src/bulldozer/signals.go`) in Lean 4 and proves properties of it.

Modelling decisions:

* Go's `(bool, string, error)` result triple becomes the structure `TriRes`
  with an `Option String` error component (`none` = `nil`).
* The `pull.Context` accessor interface becomes the structure `PullContext`;
  the fallible accessors `Labels(ctx)` and `Comments(ctx)` are fields of type
  `Except String (List String)` — a fixed outcome per evaluation, matching the
  snapshot semantics of a single `Matches` call.
* Go `for ... return` loops become structurally recursive helper functions,
  one per loop, returning the loop's `TriRes` (or falling through to the code
  that follows the loop).
* `strings.EqualFold` and `strings.Contains` are modelled on character lists;
  case folding is the ASCII fragment of Go's Unicode simple folding (all
  strings appearing in the verified claims are ASCII).
* `regexp.MatchString` is modelled by a regular-expression engine:
  a recursive-descent parser for the RE2 fragment the configuration patterns
  use (literals, `.`, `|`, `*`, `+`, `?`, parentheses, `\`-escaped
  metacharacters; other metacharacters are rejected as compile errors) and a
  Brzozowski-derivative matcher.  The engine only ever calls `MatchString`
  with patterns of the form `^p$` built by `fmt.Sprintf("^%s$", p)`, and for
  such fully anchored patterns a search is a full-string match, which is what
  the model implements; `none` models Go's `(false, err)` compile-failure
  result.
-/

/-- Go `error` values are modelled as strings; `none` in a `TriRes` is Go's
`nil` error. -/
abbrev GoErr := String

/-- The `(bool, string, error)` triple returned by `Matches` and every
`does...Match` predicate in `signals.go`. -/
structure TriRes where
  matched : Bool
  reason : String
  err : Option GoErr
deriving DecidableEq, Repr

/-- The `match` string type of `signals.go` (`type match string`). -/
abbrev MatchMode := String

/-- Constant `MATCH_ONE` of `signals.go`. -/
def MATCH_ONE : MatchMode := "one"

/-- Constant `MATCH_ALL` of `signals.go`. -/
def MATCH_ALL : MatchMode := "all"

/-- Constant `SIGNAL_NOT_FOUND` of `signals.go`. -/
def SIGNAL_NOT_FOUND : String := "Signal not found"

/-- Constant `SIGNAL_NOT_MATCH` of `signals.go`. -/
def SIGNAL_NOT_MATCH : String := "Signal not match"

/-- The `SubSignal` struct of `signals.go` (the `label` sub-condition). -/
structure SubSignal where
  Match : MatchMode
  Values : List String
deriving DecidableEq, Repr

/-- The `Signals` struct of `signals.go`. -/
structure Signals where
  Label : SubSignal
  CommentSubstrings : List String
  Comments : List String
  PRBodySubstrings : List String
  Branches : List String
  BranchPatterns : List String
  PRCreator : List String
  Match : MatchMode
deriving DecidableEq, Repr

/-- The `pull.Context` accessor interface, as a point-in-time snapshot.
`labels` models `Labels(ctx)` and `comments` models `Comments(ctx)`; both may
fail.  `targetBranch` is the first component of `Branches()` (the second is
unused by the engine), `body` is `Body()` and `creator` is `Creator()`. -/
structure PullContext where
  body : String
  comments : Except GoErr (List String)
  labels : Except GoErr (List String)
  targetBranch : String
  creator : String
deriving Repr

/-! ## Models of the Go standard-library string functions -/

/-- ASCII fragment of the simple case folding used by `strings.EqualFold`:
fold upper-case ASCII letters to lower case. -/
def foldChar (c : Char) : Char :=
  if 'A' ≤ c ∧ c ≤ 'Z' then Char.ofNat (c.toNat + 32) else c

/-- Model of Go `strings.EqualFold a b` (ASCII fragment): the two strings are
equal after case folding. -/
def stringsEqualFold (a b : String) : Bool :=
  a.data.map foldChar == b.data.map foldChar

/-- `sub` is a prefix of `l` (character lists). -/
def isPrefixL : List Char → List Char → Bool
  | [], _ => true
  | _ :: _, [] => false
  | a :: as, b :: bs => a == b && isPrefixL as bs

/-- `sub` occurs inside `l` (character lists); the empty list occurs in
every list, matching Go. -/
def containsL (sub : List Char) : List Char → Bool
  | [] => isPrefixL sub []
  | c :: rest => isPrefixL sub (c :: rest) || containsL sub rest

/-- Model of Go `strings.Contains s substr`. -/
def stringsContains (s substr : String) : Bool :=
  containsL substr.data s.data

/-- Model of the `%q` verb of `fmt.Sprintf` for the plain strings the engine
prints (no escaping needed beyond surrounding quotes). -/
def goQuote (s : String) : String := "\"" ++ s ++ "\""

/-! ## Model of `regexp.MatchString`

A regular expression AST, a Brzozowski-derivative matcher, and a
recursive-descent parser (with explicit fuel, which strictly exceeds the
number of parser steps possible on the input) for the RE2 fragment described
at the top of the file. -/

/-- Regular expressions over characters.  `dot` is RE2's `.`: any character
except newline. -/
inductive Regex where
  | emp : Regex
  | eps : Regex
  | chr : Char → Regex
  | dot : Regex
  | alt : Regex → Regex → Regex
  | cat : Regex → Regex → Regex
  | star : Regex → Regex
deriving DecidableEq, Repr

/-- Does the regex accept the empty string? -/
def Regex.nullable : Regex → Bool
  | .emp => false
  | .eps => true
  | .chr _ => false
  | .dot => false
  | .alt r1 r2 => r1.nullable || r2.nullable
  | .cat r1 r2 => r1.nullable && r2.nullable
  | .star _ => true

/-- Brzozowski derivative of a regex with respect to a character. -/
def Regex.deriv (a : Char) : Regex → Regex
  | .emp => .emp
  | .eps => .emp
  | .chr c => if a == c then .eps else .emp
  | .dot => if a == '\n' then .emp else .eps
  | .alt r1 r2 => .alt (r1.deriv a) (r2.deriv a)
  | .cat r1 r2 =>
      if r1.nullable then .alt (.cat (r1.deriv a) r2) (r2.deriv a)
      else .cat (r1.deriv a) r2
  | .star r => .cat (r.deriv a) (.star r)

/-- The regex accepts exactly the whole character list. -/
def Regex.fullMatchL (r : Regex) : List Char → Bool
  | [] => r.nullable
  | c :: cs => (r.deriv c).fullMatchL cs

/-- Metacharacters of the modelled RE2 fragment: a bare occurrence is not a
literal (`\x7b`/`\x7d` are the brace characters). -/
def isMeta (c : Char) : Bool :=
  c == '(' || c == ')' || c == '|' || c == '*' || c == '+' || c == '?' ||
  c == '.' || c == '[' || c == ']' || c == Char.ofNat 123 ||
  c == Char.ofNat 125 || c == '^' || c == '$' || c == '\\'

/-- Apply one repetition operator (`*`, `+`, `?`), each optionally followed
by a non-greedy `?` (same language). -/
def applyRep (r : Regex) : List Char → Regex × List Char
  | '*' :: '?' :: rest => (.star r, rest)
  | '*' :: rest => (.star r, rest)
  | '+' :: '?' :: rest => (.cat r (.star r), rest)
  | '+' :: rest => (.cat r (.star r), rest)
  | '?' :: '?' :: rest => (.alt r .eps, rest)
  | '?' :: rest => (.alt r .eps, rest)
  | cs => (r, cs)

mutual

/-- Parse an alternation (`cat ('|' alt)?`). -/
def parseAlt : Nat → List Char → Option (Regex × List Char)
  | 0, _ => none
  | fuel + 1, cs =>
    match parseCat fuel cs with
    | none => none
    | some (r, rest) =>
      match rest with
      | '|' :: rest2 =>
        match parseAlt fuel rest2 with
        | none => none
        | some (r2, rest3) => some (.alt r r2, rest3)
      | _ => some (r, rest)

/-- Parse a concatenation: a sequence of repetitions, ending at `)`/`|`/end
of input. -/
def parseCat : Nat → List Char → Option (Regex × List Char)
  | 0, _ => none
  | fuel + 1, cs =>
    match cs with
    | [] => some (.eps, [])
    | ')' :: _ => some (.eps, cs)
    | '|' :: _ => some (.eps, cs)
    | _ =>
      match parseRep fuel cs with
      | none => none
      | some (r, rest) =>
        match parseCat fuel rest with
        | none => none
        | some (r2, rest2) => some (.cat r r2, rest2)

/-- Parse one atom followed by an optional repetition operator. -/
def parseRep : Nat → List Char → Option (Regex × List Char)
  | 0, _ => none
  | fuel + 1, cs =>
    match parseAtom fuel cs with
    | none => none
    | some (r, rest) => some (applyRep r rest)

/-- Parse an atom: a group, `.`, an escaped metacharacter, or a literal. -/
def parseAtom : Nat → List Char → Option (Regex × List Char)
  | 0, _ => none
  | fuel + 1, cs =>
    match cs with
    | [] => none
    | '(' :: rest =>
      match parseAlt fuel rest with
      | some (r, ')' :: rest2) => some (r, rest2)
      | _ => none
    | '.' :: rest => some (.dot, rest)
    | '\\' :: c :: rest => if isMeta c then some (.chr c, rest) else none
    | c :: rest => if isMeta c then none else some (.chr c, rest)

end

/-- Compile the body `p` of an anchored pattern `^p$`: parse with ample fuel
and require the whole input to be consumed.  `none` models an RE2 compile
error. -/
def compileInner (p : List Char) : Option Regex :=
  match parseAlt (8 * p.length + 8) p with
  | some (r, []) => some r
  | _ => none

/-- Model of Go `regexp.MatchString pattern s`, restricted to the fully
anchored patterns `^p$` that `doesTargetBranchSingalMatch` builds with
`fmt.Sprintf("^%s$", p)`: for these, a search equals a full-string match of
`p` against `s`.  `some b` models `(b, nil)`; `none` models the compile-error
result `(false, err)` (a pattern not of the anchored form, or whose body is
outside the modelled fragment, is rejected). -/
def regexpMatchString (pattern s : String) : Option Bool :=
  match pattern.data with
  | '^' :: rest =>
    match rest.getLast? with
    | some '$' =>
      match compileInner (rest.dropLast) with
      | some r => some (r.fullMatchL s.data)
      | none => none
    | _ => none
  | _ => none

/-! ## The predicates of `signals.go` -/

/-- `Enabled` of `signals.go`: sums the sizes of all condition groups and
tests the sum against zero. -/
def Enabled (s : Signals) : Bool :=
  decide (0 < s.Label.Values.length + s.CommentSubstrings.length +
    s.Comments.length + s.PRBodySubstrings.length + s.Branches.length +
    s.BranchPatterns.length + s.PRCreator.length)

/-- The `MATCH_ALL` loop of `doesLabelSignalMatch`: every configured value
must case-insensitively equal some label. -/
def labelAllLoop (values labels : List String) : TriRes :=
  match values with
  | [] => ⟨true, "pull request has all labels", none⟩
  | r :: rest =>
    if labels.any (fun c => stringsEqualFold r c) then labelAllLoop rest labels
    else ⟨false, SIGNAL_NOT_MATCH, none⟩

/-- The default-mode loop of `doesLabelSignalMatch`: the first configured
value case-insensitively equal to some label `c` matches, with a reason
naming `c`. -/
def labelOneLoop (values labels : List String) : TriRes :=
  match values with
  | [] => ⟨false, "pull request has no labels match", none⟩
  | r :: rest =>
    match labels.find? (fun c => stringsEqualFold r c) with
    | some c => ⟨true, "pull request matches the label " ++ c, none⟩
    | none => labelOneLoop rest labels

/-- `doesLabelSignalMatch` of `signals.go`. -/
def doesLabelSignalMatch (s : Signals) (pullCtx : PullContext) (_tag : String) : TriRes :=
  match pullCtx.labels with
  | .error e => ⟨false, "unable to list pull request labels", some e⟩
  | .ok labels =>
    if s.Label.Values.length == 0 then ⟨false, SIGNAL_NOT_FOUND, none⟩
    else if s.Label.Match == MATCH_ALL then labelAllLoop s.Label.Values labels
    else labelOneLoop s.Label.Values labels

/-- The loop of `doesCommentSingalMatch`: for each configured string, the
body is compared first, then each comment. -/
def commentLoop (sigComments : List String) (body : String)
    (comments : List String) (tag : String) : TriRes :=
  match sigComments with
  | [] => ⟨false, SIGNAL_NOT_MATCH, none⟩
  | sc :: rest =>
    if body == sc then
      ⟨true, "pull request body is a " ++ tag ++ " comment: " ++ goQuote sc, none⟩
    else if comments.any (fun c => c == sc) then
      ⟨true, "pull request has a " ++ tag ++ " comment: " ++ goQuote sc, none⟩
    else commentLoop rest body comments tag

/-- `doesCommentSingalMatch` of `signals.go` (sic: the source's spelling).
Note the early `SIGNAL_NOT_MATCH` return when the retrieved comment list is
empty, before the body is ever compared. -/
def doesCommentSingalMatch (s : Signals) (pullCtx : PullContext) (tag : String) : TriRes :=
  match pullCtx.comments with
  | .error e => ⟨false, "unable to list pull request comments", some e⟩
  | .ok comments =>
    if s.Comments.length == 0 then ⟨false, SIGNAL_NOT_FOUND, none⟩
    else if comments.length == 0 then ⟨false, SIGNAL_NOT_MATCH, none⟩
    else commentLoop s.Comments pullCtx.body comments tag

/-- The loop of `doesCommentSubstringSingalMatch`: substring containment
against the body first, then each comment. -/
def commentSubstringLoop (substrings : List String) (body : String)
    (comments : List String) (tag : String) : TriRes :=
  match substrings with
  | [] => ⟨false, SIGNAL_NOT_MATCH, none⟩
  | ss :: rest =>
    if stringsContains body ss then
      ⟨true, "pull request body matches a " ++ tag ++ " substring: " ++ goQuote ss, none⟩
    else if comments.any (fun c => stringsContains c ss) then
      ⟨true, "pull request comment matches a " ++ tag ++ " substring: " ++ goQuote ss, none⟩
    else commentSubstringLoop rest body comments tag

/-- `doesCommentSubstringSingalMatch` of `signals.go`. -/
def doesCommentSubstringSingalMatch (s : Signals) (pullCtx : PullContext) (tag : String) : TriRes :=
  match pullCtx.comments with
  | .error e => ⟨false, "unable to list pull request comments", some e⟩
  | .ok comments =>
    if s.CommentSubstrings.length == 0 then ⟨false, SIGNAL_NOT_FOUND, none⟩
    else commentSubstringLoop s.CommentSubstrings pullCtx.body comments tag

/-- The loop of `doesPRSubstringSingalMatch`. -/
def prBodyLoop (substrings : List String) (body : String) (tag : String) : TriRes :=
  match substrings with
  | [] => ⟨false, SIGNAL_NOT_MATCH, none⟩
  | ss :: rest =>
    if stringsContains body ss then
      ⟨true, "pull request body matches a " ++ tag ++ " substring: " ++ goQuote ss, none⟩
    else prBodyLoop rest body tag

/-- `doesPRSubstringSingalMatch` of `signals.go`. -/
def doesPRSubstringSingalMatch (s : Signals) (pullCtx : PullContext) (tag : String) : TriRes :=
  if s.PRBodySubstrings.length == 0 then ⟨false, SIGNAL_NOT_FOUND, none⟩
  else prBodyLoop s.PRBodySubstrings pullCtx.body tag

/-- The pattern loop of `doesTargetBranchSingalMatch`: the compile/match
error of `regexp.MatchString` is discarded (`matched, _ :=`), so a failed
compilation contributes `false` for that pattern. -/
def branchPatternLoop (patterns : List String) (targetBranch tag : String) : TriRes :=
  match patterns with
  | [] => ⟨false, SIGNAL_NOT_MATCH, none⟩
  | pb :: rest =>
    if (regexpMatchString ("^" ++ pb ++ "$") targetBranch).getD false then
      ⟨true, "pull request target branch (" ++ goQuote targetBranch ++
        ") matches pattern: " ++ goQuote pb, none⟩
    else branchPatternLoop rest targetBranch tag

/-- The exact-branch loop of `doesTargetBranchSingalMatch`, falling through
to the pattern loop. -/
def branchExactLoop (branches patterns : List String) (targetBranch tag : String) : TriRes :=
  match branches with
  | [] => branchPatternLoop patterns targetBranch tag
  | sb :: rest =>
    if targetBranch == sb then
      ⟨true, "pull request target is a " ++ tag ++ " branch: " ++ goQuote sb, none⟩
    else branchExactLoop rest patterns targetBranch tag

/-- `doesTargetBranchSingalMatch` of `signals.go`. -/
def doesTargetBranchSingalMatch (s : Signals) (pullCtx : PullContext) (tag : String) : TriRes :=
  if s.Branches.length == 0 && s.BranchPatterns.length == 0 then
    ⟨false, SIGNAL_NOT_FOUND, none⟩
  else branchExactLoop s.Branches s.BranchPatterns pullCtx.targetBranch tag

/-- The loop of `doesCreatorSingalMatch`; the success reason prints the
snapshot creator, not the configured value. -/
def creatorLoop (creators : List String) (creator : String) : TriRes :=
  match creators with
  | [] => ⟨false, SIGNAL_NOT_MATCH, none⟩
  | sp :: rest =>
    if creator == sp then ⟨true, "pull request matches a creator " ++ creator, none⟩
    else creatorLoop rest creator

/-- `doesCreatorSingalMatch` of `signals.go`. -/
def doesCreatorSingalMatch (s : Signals) (pullCtx : PullContext) (_tag : String) : TriRes :=
  if s.PRCreator.length == 0 then ⟨false, SIGNAL_NOT_FOUND, none⟩
  else creatorLoop s.PRCreator pullCtx.creator

/-! ## The evaluator -/

/-- `matchesForOne` of `signals.go`.  Faithful to the source: on
`err != nil || match` it returns the literal `true` as the boolean — also
when the predicate reported an error. -/
def matchesForOne (s : Signals) (pullCtx : PullContext) (tag : String) : TriRes :=
  let r1 := doesLabelSignalMatch s pullCtx tag
  if r1.err.isSome || r1.matched then ⟨true, r1.reason, r1.err⟩ else
  let r2 := doesCommentSingalMatch s pullCtx tag
  if r2.err.isSome || r2.matched then ⟨true, r2.reason, r2.err⟩ else
  let r3 := doesCommentSubstringSingalMatch s pullCtx tag
  if r3.err.isSome || r3.matched then ⟨true, r3.reason, r3.err⟩ else
  let r4 := doesPRSubstringSingalMatch s pullCtx tag
  if r4.err.isSome || r4.matched then ⟨true, r4.reason, r4.err⟩ else
  let r5 := doesTargetBranchSingalMatch s pullCtx tag
  if r5.err.isSome || r5.matched then ⟨true, r5.reason, r5.err⟩ else
  let r6 := doesCreatorSingalMatch s pullCtx tag
  if r6.err.isSome || r6.matched then ⟨true, r6.reason, r6.err⟩ else
  ⟨false, "pull request does not match the " ++ tag, none⟩

/-- `matchesForAll` of `signals.go`: a predicate that errs, or that fails
while configured (reason different from `SIGNAL_NOT_FOUND`), short-circuits
to `false`. -/
def matchesForAll (s : Signals) (pullCtx : PullContext) (tag : String) : TriRes :=
  let r1 := doesLabelSignalMatch s pullCtx tag
  if r1.err.isSome || (!r1.matched && r1.reason != SIGNAL_NOT_FOUND) then ⟨false, r1.reason, r1.err⟩ else
  let r2 := doesCommentSingalMatch s pullCtx tag
  if r2.err.isSome || (!r2.matched && r2.reason != SIGNAL_NOT_FOUND) then ⟨false, r2.reason, r2.err⟩ else
  let r3 := doesCommentSubstringSingalMatch s pullCtx tag
  if r3.err.isSome || (!r3.matched && r3.reason != SIGNAL_NOT_FOUND) then ⟨false, r3.reason, r3.err⟩ else
  let r4 := doesPRSubstringSingalMatch s pullCtx tag
  if r4.err.isSome || (!r4.matched && r4.reason != SIGNAL_NOT_FOUND) then ⟨false, r4.reason, r4.err⟩ else
  let r5 := doesTargetBranchSingalMatch s pullCtx tag
  if r5.err.isSome || (!r5.matched && r5.reason != SIGNAL_NOT_FOUND) then ⟨false, r5.reason, r5.err⟩ else
  let r6 := doesCreatorSingalMatch s pullCtx tag
  if r6.err.isSome || (!r6.matched && r6.reason != SIGNAL_NOT_FOUND) then ⟨false, r6.reason, r6.err⟩ else
  ⟨true, "pull request matches the " ++ tag, none⟩

/-- `Matches` of `signals.go`. -/
def Matches (s : Signals) (pullCtx : PullContext) (tag : String) : TriRes :=
  if s.Match == MATCH_ALL then matchesForAll s pullCtx tag
  else matchesForOne s pullCtx tag

/-! ## Configuration extension (used to state monotonicity of ANY mode) -/

/-- One of the seven configured condition groups of a `Signals` value. -/
inductive SignalGroup where
  | labelValues : SignalGroup
  | commentSubstrings : SignalGroup
  | comments : SignalGroup
  | prBodySubstrings : SignalGroup
  | branches : SignalGroup
  | branchPatterns : SignalGroup
  | prCreator : SignalGroup
deriving DecidableEq, Repr

/-- Add one configured value `v` to the condition group `g` of `s`, leaving
every other group and both aggregation modes unchanged. -/
def addValue (g : SignalGroup) (v : String) (s : Signals) : Signals :=
  match g with
  | .labelValues => { s with Label := ⟨s.Label.Match, v :: s.Label.Values⟩ }
  | .commentSubstrings => { s with CommentSubstrings := v :: s.CommentSubstrings }
  | .comments => { s with Comments := v :: s.Comments }
  | .prBodySubstrings => { s with PRBodySubstrings := v :: s.PRBodySubstrings }
  | .branches => { s with Branches := v :: s.Branches }
  | .branchPatterns => { s with BranchPatterns := v :: s.BranchPatterns }
  | .prCreator => { s with PRCreator := v :: s.PRCreator }

/-! ## Error components of the predicate loops -/

theorem labelAllLoop_err (values labels : List String) :
    (labelAllLoop values labels).err = none := by
  induction values with
  | nil => rfl
  | cons r rest ih => by_cases h : labels.any (fun c => stringsEqualFold r c) <;>
      simp [labelAllLoop, h, ih]

theorem labelOneLoop_err (values labels : List String) :
    (labelOneLoop values labels).err = none := by
  induction values with
  | nil => rfl
  | cons r rest ih =>
    unfold labelOneLoop
    cases labels.find? (fun c => stringsEqualFold r c) <;> simp [ih]

theorem commentLoop_err (sigComments : List String) (body : String)
    (comments : List String) (tag : String) :
    (commentLoop sigComments body comments tag).err = none := by
  induction sigComments with
  | nil => rfl
  | cons sc rest ih =>
    unfold commentLoop
    by_cases h1 : body == sc
    · simp [h1]
    · by_cases h2 : comments.any (fun c => c == sc) <;> simp [h1, h2, ih]

theorem commentSubstringLoop_err (substrings : List String) (body : String)
    (comments : List String) (tag : String) :
    (commentSubstringLoop substrings body comments tag).err = none := by
  induction substrings with
  | nil => rfl
  | cons ss rest ih =>
    unfold commentSubstringLoop
    by_cases h1 : stringsContains body ss
    · simp [h1]
    · by_cases h2 : comments.any (fun c => stringsContains c ss) <;> simp [h1, h2, ih]

theorem prBodyLoop_err (substrings : List String) (body tag : String) :
    (prBodyLoop substrings body tag).err = none := by
  induction substrings with
  | nil => rfl
  | cons ss rest ih =>
    unfold prBodyLoop
    by_cases h : stringsContains body ss <;> simp [h, ih]

theorem branchPatternLoop_err (patterns : List String) (targetBranch tag : String) :
    (branchPatternLoop patterns targetBranch tag).err = none := by
  induction patterns with
  | nil => rfl
  | cons pb rest ih =>
    unfold branchPatternLoop
    by_cases h : (regexpMatchString ("^" ++ pb ++ "$") targetBranch).getD false <;>
      simp [h, ih]

theorem branchExactLoop_err (branches patterns : List String) (targetBranch tag : String) :
    (branchExactLoop branches patterns targetBranch tag).err = none := by
  induction branches with
  | nil => exact branchPatternLoop_err patterns targetBranch tag
  | cons sb rest ih =>
    unfold branchExactLoop
    by_cases h : targetBranch == sb <;> simp [h, ih]

theorem creatorLoop_err (creators : List String) (creator : String) :
    (creatorLoop creators creator).err = none := by
  induction creators with
  | nil => rfl
  | cons sp rest ih =>
    unfold creatorLoop
    by_cases h : creator == sp <;> simp [h, ih]

theorem doesLabelSignalMatch_err (s : Signals) (p : PullContext) (tag : String)
    (ls : List String) (hl : p.labels = .ok ls) :
    (doesLabelSignalMatch s p tag).err = none := by
  unfold doesLabelSignalMatch
  rw [hl]
  by_cases h0 : s.Label.Values.length == 0
  · simp [h0]
  · by_cases h1 : s.Label.Match == MATCH_ALL <;>
      simp [h0, h1, labelAllLoop_err, labelOneLoop_err]

theorem doesCommentSingalMatch_err (s : Signals) (p : PullContext) (tag : String)
    (cs : List String) (hc : p.comments = .ok cs) :
    (doesCommentSingalMatch s p tag).err = none := by
  unfold doesCommentSingalMatch
  rw [hc]
  by_cases h0 : s.Comments.length == 0
  · simp [h0]
  · by_cases h1 : cs.length == 0 <;> simp [h0, h1, commentLoop_err]

theorem doesCommentSubstringSingalMatch_err (s : Signals) (p : PullContext) (tag : String)
    (cs : List String) (hc : p.comments = .ok cs) :
    (doesCommentSubstringSingalMatch s p tag).err = none := by
  unfold doesCommentSubstringSingalMatch
  rw [hc]
  by_cases h0 : s.CommentSubstrings.length == 0 <;> simp [h0, commentSubstringLoop_err]

theorem doesPRSubstringSingalMatch_err (s : Signals) (p : PullContext) (tag : String) :
    (doesPRSubstringSingalMatch s p tag).err = none := by
  unfold doesPRSubstringSingalMatch
  by_cases h0 : s.PRBodySubstrings.length == 0 <;> simp [h0, prBodyLoop_err]

theorem doesTargetBranchSingalMatch_err (s : Signals) (p : PullContext) (tag : String) :
    (doesTargetBranchSingalMatch s p tag).err = none := by
  unfold doesTargetBranchSingalMatch
  by_cases h0 : s.Branches.length == 0 && s.BranchPatterns.length == 0 <;>
    simp [h0, branchExactLoop_err]

theorem doesCreatorSingalMatch_err (s : Signals) (p : PullContext) (tag : String) :
    (doesCreatorSingalMatch s p tag).err = none := by
  unfold doesCreatorSingalMatch
  by_cases h0 : s.PRCreator.length == 0 <;> simp [h0, creatorLoop_err]

/-! ## Claim C1 -/

/-- C1: the claim says a failing `Labels()` accessor yields the triple
(false, "unable to list pull request labels", err) regardless of mode.  The
code contradicts this in ANY mode: `matchesForOne` returns the literal `true`
as the boolean when a predicate errs (`return true, reason, err`), while the
ALL path returns `false` for the same failing input.  This theorem evaluates
both modes of `Matches` at the failing input. -/
theorem c1_labels_error_bool_is_true_in_any_mode :
    Matches ⟨⟨"one", ["bug"]⟩, [], [], [], [], [], [], "one"⟩
        ⟨"", .ok [], .error "label fetch failed", "main", "someone"⟩ "trigger" =
      ⟨true, "unable to list pull request labels", some "label fetch failed"⟩ ∧
    Matches ⟨⟨"one", ["bug"]⟩, [], [], [], [], [], [], "all"⟩
        ⟨"", .ok [], .error "label fetch failed", "main", "someone"⟩ "trigger" =
      ⟨false, "unable to list pull request labels", some "label fetch failed"⟩ := by
  constructor <;> rfl

/-! ## Claim C2 -/

/-- C2: the claim says that when `Comments()` returns an empty sequence but
the PR body equals a configured exact comment string, the exact-comment
predicate reports MATCHED.  The code instead returns `SIGNAL_NOT_MATCH` as
soon as the retrieved comment list is empty, before the body is ever
compared.  This theorem evaluates the predicate at such an input (body
`"LGTM"`, configured comment `"LGTM"`, zero comments retrieved). -/
theorem c2_empty_comments_skip_body_check :
    doesCommentSingalMatch ⟨⟨"one", []⟩, [], ["LGTM"], [], [], [], [], "one"⟩
        ⟨"LGTM", .ok [], .ok [], "main", "someone"⟩ "trigger" =
      ⟨false, SIGNAL_NOT_MATCH, none⟩ ∧
    ("LGTM" : String) ∈ ["LGTM"] := by
  constructor
  · rfl
  · simp

/-! ## Claim C3 -/

/-- C3 counterexample: the claim says the single pattern `"release/.*"`
yields NOT_MATCHED for branch `"release/1.0/hotfix"`.  In fact the engine
wraps the pattern as `^release/.*$` and `.` matches `/`, so `.*` consumes
`1.0/hotfix` and the target-branch predicate reports MATCHED. -/
theorem c3_hotfix_branch_matches_counterexample :
    (doesTargetBranchSingalMatch ⟨⟨"one", []⟩, [], [], [], [], ["release/.*"], [], "one"⟩
        ⟨"", .ok [], .ok [], "release/1.0/hotfix", "someone"⟩ "trigger").matched = true := by
  rfl

/-- C3 (amended): branch patterns are implicitly anchored at both ends; with
the single pattern `"release/.*"` the target-branch predicate reports
MATCHED for `"release/1.0"`, NOT_MATCHED for `"pre-release/1.0"` (the anchor
rules out a substring match), and — because `.` also matches `/` — MATCHED
for `"release/1.0/hotfix"`. -/
theorem c3_branch_pattern_anchoring :
    (doesTargetBranchSingalMatch ⟨⟨"one", []⟩, [], [], [], [], ["release/.*"], [], "one"⟩
        ⟨"", .ok [], .ok [], "release/1.0", "someone"⟩ "trigger").matched = true ∧
    doesTargetBranchSingalMatch ⟨⟨"one", []⟩, [], [], [], [], ["release/.*"], [], "one"⟩
        ⟨"", .ok [], .ok [], "pre-release/1.0", "someone"⟩ "trigger" =
      ⟨false, SIGNAL_NOT_MATCH, none⟩ ∧
    (doesTargetBranchSingalMatch ⟨⟨"one", []⟩, [], [], [], [], ["release/.*"], [], "one"⟩
        ⟨"", .ok [], .ok [], "release/1.0/hotfix", "someone"⟩ "trigger").matched = true := by
  refine ⟨rfl, rfl, rfl⟩

/-! ## Claim C6 -/

/-- C6: `Enabled` returns `true` iff at least one configured value exists
across the seven condition groups; in particular it returns `false` when
every group is empty. -/
theorem c6_enabled_iff_some_value_configured (s : Signals) :
    Enabled s = true ↔
      (s.Label.Values ≠ [] ∨ s.CommentSubstrings ≠ [] ∨ s.Comments ≠ [] ∨
       s.PRBodySubstrings ≠ [] ∨ s.Branches ≠ [] ∨ s.BranchPatterns ≠ [] ∨
       s.PRCreator ≠ []) := by
  simp only [Enabled, decide_eq_true_eq, Nat.add_pos_iff_pos_or_pos,
    List.length_pos_iff_ne_nil]
  tauto

/-! ## Claim C8 -/

theorem creatorLoop_matched_iff (creators : List String) (creator : String) :
    (creatorLoop creators creator).matched = true ↔ creator ∈ creators := by
  induction creators with
  | nil => simp [creatorLoop]
  | cons sp rest ih =>
    unfold creatorLoop
    by_cases h : creator == sp
    · simp_all
    · simp only [beq_iff_eq] at h
      simp [h, ih, beq_iff_eq]

/-- C8: creator matching is exact and case-sensitive — the creator predicate
reports MATCHED iff the snapshot creator login is string-equal to some
configured creator value, and with no configured creators it reports
NOT_CONFIGURED (`SIGNAL_NOT_FOUND`).  Case-insensitive near-misses such as
configured `"alice"` vs creator `"Alice"` therefore do not match (see the
witness). -/
theorem c8_creator_exact_case_sensitive (s : Signals) (p : PullContext) (tag : String) :
    (s.PRCreator = [] → doesCreatorSingalMatch s p tag = ⟨false, SIGNAL_NOT_FOUND, none⟩) ∧
    ((doesCreatorSingalMatch s p tag).matched = true ↔ p.creator ∈ s.PRCreator) := by
  constructor
  · intro h
    simp [doesCreatorSingalMatch, h]
  · unfold doesCreatorSingalMatch
    by_cases h0 : s.PRCreator.length == 0
    · simp only [beq_iff_eq, List.length_eq_zero] at h0
      simp [h0]
    · simp only [beq_iff_eq, List.length_eq_zero] at h0
      simp [h0, creatorLoop_matched_iff]

/-- Witness for C8, applying the theorem at concrete inputs: with no
configured creators the predicate reports NOT_CONFIGURED, and with configured
`["alice"]` the predicate matches creator `"Alice"` iff `"Alice" ∈ ["alice"]`
— which fails, exhibiting case sensitivity. -/
theorem c8_creator_exact_case_sensitive_witness :
    doesCreatorSingalMatch ⟨⟨"one", []⟩, [], [], [], [], [], [], "one"⟩
        ⟨"", .ok [], .ok [], "main", "Alice"⟩ "trigger" =
      ⟨false, SIGNAL_NOT_FOUND, none⟩ ∧
    ((doesCreatorSingalMatch ⟨⟨"one", []⟩, [], [], [], [], [], ["alice"], "one"⟩
        ⟨"", .ok [], .ok [], "main", "Alice"⟩ "trigger").matched = true ↔
      ("Alice" : String) ∈ ["alice"]) ∧
    ("Alice" : String) ∉ (["alice"] : List String) := by
  refine ⟨(c8_creator_exact_case_sensitive _ _ _).1 rfl,
    (c8_creator_exact_case_sensitive _ _ _).2, by decide⟩

/-! ## Claim C4 -/

/-- C4: in ALL mode, when every condition group is empty (so every predicate
reports NOT_CONFIGURED) and both fallible accessors succeed, `Matches`
returns the vacuous-true triple (true, "pull request matches the <tag>",
nil). -/
theorem c4_all_mode_vacuous_true (s : Signals) (p : PullContext) (tag : String)
    (ls cs : List String) (hmode : s.Match = MATCH_ALL)
    (h1 : s.Label.Values = []) (h2 : s.CommentSubstrings = []) (h3 : s.Comments = [])
    (h4 : s.PRBodySubstrings = []) (h5 : s.Branches = []) (h6 : s.BranchPatterns = [])
    (h7 : s.PRCreator = []) (hl : p.labels = .ok ls) (hc : p.comments = .ok cs) :
    Matches s p tag = ⟨true, "pull request matches the " ++ tag, none⟩ := by
  unfold Matches
  simp [hmode, matchesForAll, doesLabelSignalMatch, doesCommentSingalMatch,
    doesCommentSubstringSingalMatch, doesPRSubstringSingalMatch,
    doesTargetBranchSingalMatch, doesCreatorSingalMatch,
    hl, hc, h1, h2, h3, h4, h5, h6, h7]

/-- Witness for C4 at a concrete all-empty ALL-mode configuration. -/
theorem c4_all_mode_vacuous_true_witness :
    Matches ⟨⟨"one", []⟩, [], [], [], [], [], [], "all"⟩
        ⟨"", .ok ["a comment"], .ok ["a label"], "main", "someone"⟩ "trigger signals" =
      ⟨true, "pull request matches the trigger signals", none⟩ :=
  c4_all_mode_vacuous_true _ _ _ ["a label"] ["a comment"]
    rfl rfl rfl rfl rfl rfl rfl rfl rfl rfl

/-! ## Claim C7 -/

theorem labelAllLoop_matched (values labels : List String) :
    (labelAllLoop values labels).matched =
      values.all (fun r => labels.any fun c => stringsEqualFold r c) := by
  induction values with
  | nil => rfl
  | cons r rest ih =>
    unfold labelAllLoop
    by_cases h : labels.any (fun c => stringsEqualFold r c) <;> simp [h, ih]

theorem labelAllLoop_reason (values labels : List String)
    (h : (labelAllLoop values labels).matched = false) :
    (labelAllLoop values labels).reason = SIGNAL_NOT_MATCH := by
  induction values with
  | nil => simp [labelAllLoop] at h
  | cons r rest ih =>
    unfold labelAllLoop at h ⊢
    by_cases hh : labels.any (fun c => stringsEqualFold r c)
    · rw [if_pos hh] at h ⊢
      exact ih h
    · rw [if_neg hh]

theorem labelOneLoop_matched (values labels : List String) :
    (labelOneLoop values labels).matched =
      values.any (fun r => labels.any fun c => stringsEqualFold r c) := by
  induction values with
  | nil => rfl
  | cons r rest ih =>
    unfold labelOneLoop
    cases hf : labels.find? (fun c => stringsEqualFold r c) with
    | some c =>
      have hc : labels.any (fun c => stringsEqualFold r c) = true := by
        rw [List.any_eq_true]
        exact ⟨c, List.mem_of_find?_eq_some hf, List.find?_some hf⟩
      simp [hc]
    | none =>
      have hc : labels.any (fun c => stringsEqualFold r c) = false := by
        rw [Bool.eq_false_iff]
        intro hany
        rw [List.any_eq_true] at hany
        obtain ⟨c, hmem, hfold⟩ := hany
        have := List.find?_eq_none.mp hf c hmem
        simp [hfold] at this
      simp [hc, ih]

/-- C7: label matching is case-insensitive in both label sub-condition
modes — a configured value matches a snapshot label exactly when
`stringsEqualFold` (equality under case folding) holds.  In ALL mode the
predicate matches iff every configured value case-insensitively equals some
snapshot label, and a single miss yields reason `SIGNAL_NOT_MATCH`; in the
default ANY mode it matches iff some configured value case-insensitively
equals some snapshot label.  The witness instantiates `{values: ["Bug"]}`
against snapshot label `"bug"`. -/
theorem c7_label_matching_case_insensitive (s : Signals) (p : PullContext)
    (tag : String) (ls : List String) (hl : p.labels = .ok ls)
    (hne : s.Label.Values ≠ []) :
    (s.Label.Match = MATCH_ALL →
      (((doesLabelSignalMatch s p tag).matched = true) ↔
        ∀ r ∈ s.Label.Values, ∃ c ∈ ls, stringsEqualFold r c = true) ∧
      ((doesLabelSignalMatch s p tag).matched = false →
        (doesLabelSignalMatch s p tag).reason = SIGNAL_NOT_MATCH)) ∧
    (s.Label.Match ≠ MATCH_ALL →
      (((doesLabelSignalMatch s p tag).matched = true) ↔
        ∃ r ∈ s.Label.Values, ∃ c ∈ ls, stringsEqualFold r c = true)) := by
  have h0 : (s.Label.Values.length == 0) = false := by
    simp [List.length_eq_zero, hne]
  constructor
  · intro hall
    have hbeq : (s.Label.Match == MATCH_ALL) = true := by simp [hall]
    constructor
    · unfold doesLabelSignalMatch
      rw [hl]
      simp only [h0, Bool.false_eq_true, if_false, hbeq, if_true,
        labelAllLoop_matched, List.all_eq_true, List.any_eq_true]
    · intro hfalse
      unfold doesLabelSignalMatch at hfalse ⊢
      rw [hl] at hfalse ⊢
      simp only [h0, Bool.false_eq_true, if_false, hbeq, if_true] at hfalse ⊢
      exact labelAllLoop_reason _ _ hfalse
  · intro hone
    have hbeq : (s.Label.Match == MATCH_ALL) = false := by simp [hone]
    unfold doesLabelSignalMatch
    rw [hl]
    simp only [h0, Bool.false_eq_true, if_false, hbeq, if_true,
      labelOneLoop_matched, List.any_eq_true]

/-- Witness for C7: `{values: ["Bug"], match: all}` matches snapshot labels
`["bug"]` — and the backing case-folding fact. -/
theorem c7_label_matching_case_insensitive_witness :
    (((doesLabelSignalMatch ⟨⟨"all", ["Bug"]⟩, [], [], [], [], [], [], "one"⟩
        ⟨"", .ok [], .ok ["bug"], "main", "x"⟩ "trigger").matched = true) ↔
      ∀ r ∈ ["Bug"], ∃ c ∈ ["bug"], stringsEqualFold r c = true) ∧
    stringsEqualFold "Bug" "bug" = true := by
  refine ⟨((c7_label_matching_case_insensitive _ _ "trigger" ["bug"] rfl
    (by decide)).1 rfl).1, by decide⟩

/-! ## Claim C9 -/

/-- C9: a malformed branch pattern never aborts evaluation — the
target-branch predicate's error component is `none` for every configuration
and snapshot, so it never contributes an error to `Matches` — and a pattern
whose compilation fails (`regexpMatchString` returns `none`, modelling Go's
`(false, err)`) is treated as non-matching for that pattern: the pattern
loop on `pat :: rest` equals the loop on `rest`, so evaluation proceeds with
the remaining patterns and predicates. -/
theorem c9_malformed_pattern_swallowed (s : Signals) (p : PullContext)
    (tag pat : String) (rest : List String)
    (hbad : regexpMatchString ("^" ++ pat ++ "$") p.targetBranch = none) :
    (doesTargetBranchSingalMatch s p tag).err = none ∧
    branchPatternLoop (pat :: rest) p.targetBranch tag =
      branchPatternLoop rest p.targetBranch tag := by
  refine ⟨doesTargetBranchSingalMatch_err s p tag, ?_⟩
  have hfalse : (regexpMatchString ("^" ++ pat ++ "$") p.targetBranch).getD false = false := by
    rw [hbad]
    rfl
  rw [branchPatternLoop, hfalse]
  simp

/-- Witness for C9: the malformed pattern `"("` is skipped and the
well-formed pattern `"main"` after it is still reachable. -/
theorem c9_malformed_pattern_swallowed_witness :
    (doesTargetBranchSingalMatch ⟨⟨"one", []⟩, [], [], [], [], ["(", "main"], [], "one"⟩
        ⟨"", .ok [], .ok [], "main", "x"⟩ "trigger").err = none ∧
    branchPatternLoop ["(", "main"] "main" "trigger" =
      branchPatternLoop ["main"] "main" "trigger" :=
  c9_malformed_pattern_swallowed _ _ "trigger" "(" ["main"] rfl

/-! ## Claim C10 -/

/-- C10: the label and comment predicates call their accessor before the
configuration check.  A failing `Labels()` makes `Matches` return the
wrapped reason and underlying error even with no label values configured;
a failing `Comments()` is likewise propagated by both comment predicates
even when no exact comments or comment substrings are configured, and it
reaches `Matches` (through the comment predicate) when the earlier label
predicate passes through. -/
theorem c10_accessors_before_config_check (s : Signals) (p : PullContext)
    (tag : String) (e : GoErr) (ls : List String) :
    (s.Label.Values = [] → p.labels = .error e →
      (Matches s p tag).reason = "unable to list pull request labels" ∧
      (Matches s p tag).err = some e) ∧
    (s.Comments = [] → p.comments = .error e →
      doesCommentSingalMatch s p tag =
        ⟨false, "unable to list pull request comments", some e⟩) ∧
    (s.CommentSubstrings = [] → p.comments = .error e →
      doesCommentSubstringSingalMatch s p tag =
        ⟨false, "unable to list pull request comments", some e⟩) ∧
    (s.Label.Values = [] → s.Comments = [] → s.CommentSubstrings = [] →
      p.labels = .ok ls → p.comments = .error e →
      (Matches s p tag).reason = "unable to list pull request comments" ∧
      (Matches s p tag).err = some e) := by
  refine ⟨?_, ?_, ?_, ?_⟩
  · intro _ hl
    unfold Matches
    by_cases hm : s.Match == MATCH_ALL <;>
      simp [hm, matchesForAll, matchesForOne, doesLabelSignalMatch, hl]
  · intro _ hc
    simp [doesCommentSingalMatch, hc]
  · intro _ hc
    simp [doesCommentSubstringSingalMatch, hc]
  · intro h1 h3 h2 hl hc
    unfold Matches
    by_cases hm : s.Match == MATCH_ALL <;>
      simp [hm, matchesForAll, matchesForOne, doesLabelSignalMatch,
        doesCommentSingalMatch, hl, hc, h1]

/-- Witness for C10 at concrete inputs: an empty configuration with a
failing `Labels()` (respectively `Comments()`) accessor still surfaces the
accessor error. -/
theorem c10_accessors_before_config_check_witness :
    ((Matches ⟨⟨"one", []⟩, [], [], [], [], [], [], "one"⟩
        ⟨"", .ok [], .error "boom", "main", "x"⟩ "t").reason =
          "unable to list pull request labels" ∧
      (Matches ⟨⟨"one", []⟩, [], [], [], [], [], [], "one"⟩
        ⟨"", .ok [], .error "boom", "main", "x"⟩ "t").err = some "boom") ∧
    (doesCommentSingalMatch ⟨⟨"one", []⟩, [], [], [], [], [], [], "one"⟩
        ⟨"", .error "boom", .ok [], "main", "x"⟩ "t" =
      ⟨false, "unable to list pull request comments", some "boom"⟩) ∧
    (doesCommentSubstringSingalMatch ⟨⟨"one", []⟩, [], [], [], [], [], [], "one"⟩
        ⟨"", .error "boom", .ok [], "main", "x"⟩ "t" =
      ⟨false, "unable to list pull request comments", some "boom"⟩) ∧
    ((Matches ⟨⟨"one", []⟩, [], [], [], [], [], [], "one"⟩
        ⟨"", .error "boom", .ok [], "main", "x"⟩ "t").reason =
          "unable to list pull request comments" ∧
      (Matches ⟨⟨"one", []⟩, [], [], [], [], [], [], "one"⟩
        ⟨"", .error "boom", .ok [], "main", "x"⟩ "t").err = some "boom") :=
  ⟨(c10_accessors_before_config_check _ _ "t" "boom" []).1 rfl rfl,
   (c10_accessors_before_config_check _ _ "t" "boom" []).2.1 rfl rfl,
   (c10_accessors_before_config_check _ _ "t" "boom" []).2.2.1 rfl rfl,
   (c10_accessors_before_config_check _ _ "t" "boom" []).2.2.2 rfl rfl rfl rfl rfl⟩

/-! ## Claim C5 — machinery -/

theorem doesLabelSignalMatch_congr (s1 s2 : Signals) (p : PullContext) (tag : String)
    (h : s1.Label = s2.Label) :
    doesLabelSignalMatch s1 p tag = doesLabelSignalMatch s2 p tag := by
  unfold doesLabelSignalMatch
  rw [h]

theorem doesCommentSingalMatch_congr (s1 s2 : Signals) (p : PullContext) (tag : String)
    (h : s1.Comments = s2.Comments) :
    doesCommentSingalMatch s1 p tag = doesCommentSingalMatch s2 p tag := by
  unfold doesCommentSingalMatch
  rw [h]

theorem doesCommentSubstringSingalMatch_congr (s1 s2 : Signals) (p : PullContext) (tag : String)
    (h : s1.CommentSubstrings = s2.CommentSubstrings) :
    doesCommentSubstringSingalMatch s1 p tag = doesCommentSubstringSingalMatch s2 p tag := by
  unfold doesCommentSubstringSingalMatch
  rw [h]

theorem doesPRSubstringSingalMatch_congr (s1 s2 : Signals) (p : PullContext) (tag : String)
    (h : s1.PRBodySubstrings = s2.PRBodySubstrings) :
    doesPRSubstringSingalMatch s1 p tag = doesPRSubstringSingalMatch s2 p tag := by
  unfold doesPRSubstringSingalMatch
  rw [h]

theorem doesTargetBranchSingalMatch_congr (s1 s2 : Signals) (p : PullContext) (tag : String)
    (h1 : s1.Branches = s2.Branches) (h2 : s1.BranchPatterns = s2.BranchPatterns) :
    doesTargetBranchSingalMatch s1 p tag = doesTargetBranchSingalMatch s2 p tag := by
  unfold doesTargetBranchSingalMatch
  rw [h1, h2]

theorem doesCreatorSingalMatch_congr (s1 s2 : Signals) (p : PullContext) (tag : String)
    (h : s1.PRCreator = s2.PRCreator) :
    doesCreatorSingalMatch s1 p tag = doesCreatorSingalMatch s2 p tag := by
  unfold doesCreatorSingalMatch
  rw [h]

theorem labelOneLoop_mono (v : String) (values labels : List String)
    (h : (labelOneLoop values labels).matched = true) :
    (labelOneLoop (v :: values) labels).matched = true := by
  rw [labelOneLoop_matched] at h ⊢
  simp [h]

theorem commentLoop_mono (v : String) (sigs : List String) (body : String)
    (comments : List String) (tag : String)
    (h : (commentLoop sigs body comments tag).matched = true) :
    (commentLoop (v :: sigs) body comments tag).matched = true := by
  unfold commentLoop
  by_cases h1 : body == v
  · simp [h1]
  · by_cases h2 : comments.any (fun c => c == v) <;> simp [h1, h2, h]

theorem commentSubstringLoop_mono (v : String) (subs : List String) (body : String)
    (comments : List String) (tag : String)
    (h : (commentSubstringLoop subs body comments tag).matched = true) :
    (commentSubstringLoop (v :: subs) body comments tag).matched = true := by
  unfold commentSubstringLoop
  by_cases h1 : stringsContains body v
  · simp [h1]
  · by_cases h2 : comments.any (fun c => stringsContains c v) <;> simp [h1, h2, h]

theorem prBodyLoop_mono (v : String) (subs : List String) (body tag : String)
    (h : (prBodyLoop subs body tag).matched = true) :
    (prBodyLoop (v :: subs) body tag).matched = true := by
  unfold prBodyLoop
  by_cases h1 : stringsContains body v <;> simp [h1, h]

theorem creatorLoop_mono (v : String) (creators : List String) (creator : String)
    (h : (creatorLoop creators creator).matched = true) :
    (creatorLoop (v :: creators) creator).matched = true := by
  unfold creatorLoop
  by_cases h1 : creator == v <;> simp [h1, h]

theorem branchExactLoop_mono_branch (v : String) (bs ps : List String) (tb tag : String)
    (h : (branchExactLoop bs ps tb tag).matched = true) :
    (branchExactLoop (v :: bs) ps tb tag).matched = true := by
  unfold branchExactLoop
  by_cases h1 : tb == v <;> simp [h1, h]

theorem branchExactLoop_mono_pattern (v : String) (bs ps : List String) (tb tag : String)
    (h : (branchExactLoop bs ps tb tag).matched = true) :
    (branchExactLoop bs (v :: ps) tb tag).matched = true := by
  induction bs with
  | nil =>
    unfold branchExactLoop at h ⊢
    unfold branchPatternLoop
    by_cases h1 : (regexpMatchString ("^" ++ v ++ "$") tb).getD false <;> simp [h1, h]
  | cons sb rest ih =>
    unfold branchExactLoop at h ⊢
    by_cases h1 : tb == sb
    · simp [h1]
    · simp only [h1, Bool.false_eq_true, if_false] at h ⊢
      exact ih h

theorem doesLabelSignalMatch_mono (s : Signals) (p : PullContext) (tag v : String)
    (ls : List String) (hl : p.labels = .ok ls) (hsub : s.Label.Match ≠ MATCH_ALL)
    (h : (doesLabelSignalMatch s p tag).matched = true) :
    (doesLabelSignalMatch (addValue .labelValues v s) p tag).matched = true := by
  have hbeq : (s.Label.Match == MATCH_ALL) = false := by simp [hsub]
  unfold doesLabelSignalMatch at h ⊢
  rw [hl] at h ⊢
  simp only [addValue]
  by_cases h0 : s.Label.Values.length == 0
  · simp [h0] at h
  · simp only [h0, Bool.false_eq_true, if_false, hbeq] at h
    simp only [List.length_cons, hbeq]
    have hlen : ((s.Label.Values.length + 1) == 0) = false := by simp
    simp only [hlen, Bool.false_eq_true, if_false]
    exact labelOneLoop_mono v _ _ h

theorem doesCommentSingalMatch_mono (s : Signals) (p : PullContext) (tag v : String)
    (cs : List String) (hc : p.comments = .ok cs)
    (h : (doesCommentSingalMatch s p tag).matched = true) :
    (doesCommentSingalMatch (addValue .comments v s) p tag).matched = true := by
  unfold doesCommentSingalMatch at h ⊢
  rw [hc] at h ⊢
  simp only [addValue]
  by_cases h0 : s.Comments.length == 0
  · simp [h0] at h
  · by_cases h1 : cs.length == 0
    · simp [h0, h1] at h
    · simp only [h0, h1, Bool.false_eq_true, if_false] at h
      have hlen : ((s.Comments.length + 1) == 0) = false := by simp
      simp only [List.length_cons, hlen, h1, Bool.false_eq_true, if_false]
      exact commentLoop_mono v _ _ _ _ h

theorem doesCommentSubstringSingalMatch_mono (s : Signals) (p : PullContext) (tag v : String)
    (cs : List String) (hc : p.comments = .ok cs)
    (h : (doesCommentSubstringSingalMatch s p tag).matched = true) :
    (doesCommentSubstringSingalMatch (addValue .commentSubstrings v s) p tag).matched = true := by
  unfold doesCommentSubstringSingalMatch at h ⊢
  rw [hc] at h ⊢
  simp only [addValue]
  by_cases h0 : s.CommentSubstrings.length == 0
  · simp [h0] at h
  · simp only [h0, Bool.false_eq_true, if_false] at h
    have hlen : ((s.CommentSubstrings.length + 1) == 0) = false := by simp
    simp only [List.length_cons, hlen, Bool.false_eq_true, if_false]
    exact commentSubstringLoop_mono v _ _ _ _ h

theorem doesPRSubstringSingalMatch_mono (s : Signals) (p : PullContext) (tag v : String)
    (h : (doesPRSubstringSingalMatch s p tag).matched = true) :
    (doesPRSubstringSingalMatch (addValue .prBodySubstrings v s) p tag).matched = true := by
  unfold doesPRSubstringSingalMatch at h ⊢
  simp only [addValue]
  by_cases h0 : s.PRBodySubstrings.length == 0
  · simp [h0] at h
  · simp only [h0, Bool.false_eq_true, if_false] at h
    have hlen : ((s.PRBodySubstrings.length + 1) == 0) = false := by simp
    simp only [List.length_cons, hlen, Bool.false_eq_true, if_false]
    exact prBodyLoop_mono v _ _ _ h

theorem doesTargetBranchSingalMatch_mono_branch (s : Signals) (p : PullContext) (tag v : String)
    (h : (doesTargetBranchSingalMatch s p tag).matched = true) :
    (doesTargetBranchSingalMatch (addValue .branches v s) p tag).matched = true := by
  unfold doesTargetBranchSingalMatch at h ⊢
  simp only [addValue]
  by_cases h0 : s.Branches.length == 0 && s.BranchPatterns.length == 0
  · simp [h0] at h
  · simp only [h0, Bool.false_eq_true, if_false] at h
    have hlen : (((s.Branches.length + 1) == 0) && (s.BranchPatterns.length == 0)) = false := by
      simp
    simp only [List.length_cons, hlen, Bool.false_eq_true, if_false]
    exact branchExactLoop_mono_branch v _ _ _ _ h

theorem doesTargetBranchSingalMatch_mono_pattern (s : Signals) (p : PullContext) (tag v : String)
    (h : (doesTargetBranchSingalMatch s p tag).matched = true) :
    (doesTargetBranchSingalMatch (addValue .branchPatterns v s) p tag).matched = true := by
  unfold doesTargetBranchSingalMatch at h ⊢
  simp only [addValue]
  by_cases h0 : s.Branches.length == 0 && s.BranchPatterns.length == 0
  · simp [h0] at h
  · simp only [h0, Bool.false_eq_true, if_false] at h
    have hlen : ((s.Branches.length == 0) && ((s.BranchPatterns.length + 1) == 0)) = false := by
      simp
    simp only [List.length_cons, hlen, Bool.false_eq_true, if_false]
    exact branchExactLoop_mono_pattern v _ _ _ _ h

theorem doesCreatorSingalMatch_mono (s : Signals) (p : PullContext) (tag v : String)
    (h : (doesCreatorSingalMatch s p tag).matched = true) :
    (doesCreatorSingalMatch (addValue .prCreator v s) p tag).matched = true := by
  unfold doesCreatorSingalMatch at h ⊢
  simp only [addValue]
  by_cases h0 : s.PRCreator.length == 0
  · simp [h0] at h
  · simp only [h0, Bool.false_eq_true, if_false] at h
    have hlen : ((s.PRCreator.length + 1) == 0) = false := by simp
    simp only [List.length_cons, hlen, Bool.false_eq_true, if_false]
    exact creatorLoop_mono v _ _ h

/-- With both fallible accessors succeeding, the ANY-mode boolean is the
disjunction of the six predicate booleans. -/
theorem matchesForOne_matched (s : Signals) (p : PullContext) (tag : String)
    (ls cs : List String) (hl : p.labels = .ok ls) (hc : p.comments = .ok cs) :
    (matchesForOne s p tag).matched =
      ((doesLabelSignalMatch s p tag).matched ||
       (doesCommentSingalMatch s p tag).matched ||
       (doesCommentSubstringSingalMatch s p tag).matched ||
       (doesPRSubstringSingalMatch s p tag).matched ||
       (doesTargetBranchSingalMatch s p tag).matched ||
       (doesCreatorSingalMatch s p tag).matched) := by
  have e1 := doesLabelSignalMatch_err s p tag ls hl
  have e2 := doesCommentSingalMatch_err s p tag cs hc
  have e3 := doesCommentSubstringSingalMatch_err s p tag cs hc
  have e4 := doesPRSubstringSingalMatch_err s p tag
  have e5 := doesTargetBranchSingalMatch_err s p tag
  have e6 := doesCreatorSingalMatch_err s p tag
  unfold matchesForOne
  simp only [e1, e2, e3, e4, e5, e6, Option.isSome_none, Bool.false_or]
  by_cases h1 : (doesLabelSignalMatch s p tag).matched <;>
    by_cases h2 : (doesCommentSingalMatch s p tag).matched <;>
    by_cases h3 : (doesCommentSubstringSingalMatch s p tag).matched <;>
    by_cases h4 : (doesPRSubstringSingalMatch s p tag).matched <;>
    by_cases h5 : (doesTargetBranchSingalMatch s p tag).matched <;>
    by_cases h6 : (doesCreatorSingalMatch s p tag).matched <;>
    simp [h1, h2, h3, h4, h5, h6]

/-! ## Claim C5 -/

/-- C5 counterexample: the claim, as stated, fails when the label
sub-condition is in ALL mode.  The ANY-mode SignalSet with label values
`["bug"]` (label sub-mode ALL) matches the snapshot with labels `["bug"]`
with no accessor errors, but adding the configured value `"feature"` to the
label group flips the boolean result of `Matches` to `false`. -/
theorem c5_add_label_value_flips_counterexample :
    Matches ⟨⟨"all", ["bug"]⟩, [], [], [], [], [], [], "one"⟩
        ⟨"", .ok [], .ok ["bug"], "main", "x"⟩ "trigger" =
      ⟨true, "pull request has all labels", none⟩ ∧
    (Matches
        (addValue .labelValues "feature" ⟨⟨"all", ["bug"]⟩, [], [], [], [], [], [], "one"⟩)
        ⟨"", .ok [], .ok ["bug"], "main", "x"⟩ "trigger").matched = false := by
  constructor <;> rfl

/-- C5 (amended): ANY-mode evaluation is monotonic in the configuration for
every condition group except the label group in ALL sub-mode: if `Matches`
returns `true` with both fallible accessors succeeding, then adding one
configured value to any group — where, for the label group, the label
sub-condition is not in ALL mode — keeps the boolean result `true`. -/
theorem c5_any_mode_monotonic (s : Signals) (p : PullContext) (tag v : String)
    (g : SignalGroup) (ls cs : List String)
    (hmode : s.Match = MATCH_ONE)
    (hlab : g = SignalGroup.labelValues → s.Label.Match ≠ MATCH_ALL)
    (hl : p.labels = .ok ls) (hc : p.comments = .ok cs)
    (h : (Matches s p tag).matched = true) :
    (Matches (addValue g v s) p tag).matched = true := by
  have hone : (s.Match == MATCH_ALL) = false := by
    simp [hmode, MATCH_ONE, MATCH_ALL]
  have hone2 : ((addValue g v s).Match == MATCH_ALL) = false := by
    cases g <;> simp [addValue, hmode, MATCH_ONE, MATCH_ALL]
  unfold Matches at h ⊢
  simp only [hone, Bool.false_eq_true, if_false] at h
  simp only [hone2, Bool.false_eq_true, if_false]
  rw [matchesForOne_matched s p tag ls cs hl hc] at h
  rw [matchesForOne_matched (addValue g v s) p tag ls cs hl hc]
  cases g with
  | labelValues =>
    rw [doesCommentSingalMatch_congr (addValue .labelValues v s) s p tag rfl,
      doesCommentSubstringSingalMatch_congr (addValue .labelValues v s) s p tag rfl,
      doesPRSubstringSingalMatch_congr (addValue .labelValues v s) s p tag rfl,
      doesTargetBranchSingalMatch_congr (addValue .labelValues v s) s p tag rfl rfl,
      doesCreatorSingalMatch_congr (addValue .labelValues v s) s p tag rfl]
    have mono : (doesLabelSignalMatch s p tag).matched = true →
        (doesLabelSignalMatch (addValue .labelValues v s) p tag).matched = true :=
      doesLabelSignalMatch_mono s p tag v ls hl (hlab rfl)
    simp only [Bool.or_eq_true] at h ⊢
    rcases h with ((((h | h) | h) | h) | h) | h
    · exact Or.inl (Or.inl (Or.inl (Or.inl (Or.inl (mono h)))))
    · exact Or.inl (Or.inl (Or.inl (Or.inl (Or.inr h))))
    · exact Or.inl (Or.inl (Or.inl (Or.inr h)))
    · exact Or.inl (Or.inl (Or.inr h))
    · exact Or.inl (Or.inr h)
    · exact Or.inr h
  | comments =>
    rw [doesLabelSignalMatch_congr (addValue .comments v s) s p tag rfl,
      doesCommentSubstringSingalMatch_congr (addValue .comments v s) s p tag rfl,
      doesPRSubstringSingalMatch_congr (addValue .comments v s) s p tag rfl,
      doesTargetBranchSingalMatch_congr (addValue .comments v s) s p tag rfl rfl,
      doesCreatorSingalMatch_congr (addValue .comments v s) s p tag rfl]
    have mono : (doesCommentSingalMatch s p tag).matched = true →
        (doesCommentSingalMatch (addValue .comments v s) p tag).matched = true :=
      doesCommentSingalMatch_mono s p tag v cs hc
    simp only [Bool.or_eq_true] at h ⊢
    rcases h with ((((h | h) | h) | h) | h) | h
    · exact Or.inl (Or.inl (Or.inl (Or.inl (Or.inl (h)))))
    · exact Or.inl (Or.inl (Or.inl (Or.inl (Or.inr (mono h)))))
    · exact Or.inl (Or.inl (Or.inl (Or.inr (h))))
    · exact Or.inl (Or.inl (Or.inr (h)))
    · exact Or.inl (Or.inr (h))
    · exact Or.inr (h)
  | commentSubstrings =>
    rw [doesLabelSignalMatch_congr (addValue .commentSubstrings v s) s p tag rfl,
      doesCommentSingalMatch_congr (addValue .commentSubstrings v s) s p tag rfl,
      doesPRSubstringSingalMatch_congr (addValue .commentSubstrings v s) s p tag rfl,
      doesTargetBranchSingalMatch_congr (addValue .commentSubstrings v s) s p tag rfl rfl,
      doesCreatorSingalMatch_congr (addValue .commentSubstrings v s) s p tag rfl]
    have mono : (doesCommentSubstringSingalMatch s p tag).matched = true →
        (doesCommentSubstringSingalMatch (addValue .commentSubstrings v s) p tag).matched = true :=
      doesCommentSubstringSingalMatch_mono s p tag v cs hc
    simp only [Bool.or_eq_true] at h ⊢
    rcases h with ((((h | h) | h) | h) | h) | h
    · exact Or.inl (Or.inl (Or.inl (Or.inl (Or.inl (h)))))
    · exact Or.inl (Or.inl (Or.inl (Or.inl (Or.inr (h)))))
    · exact Or.inl (Or.inl (Or.inl (Or.inr (mono h))))
    · exact Or.inl (Or.inl (Or.inr (h)))
    · exact Or.inl (Or.inr (h))
    · exact Or.inr (h)
  | prBodySubstrings =>
    rw [doesLabelSignalMatch_congr (addValue .prBodySubstrings v s) s p tag rfl,
      doesCommentSingalMatch_congr (addValue .prBodySubstrings v s) s p tag rfl,
      doesCommentSubstringSingalMatch_congr (addValue .prBodySubstrings v s) s p tag rfl,
      doesTargetBranchSingalMatch_congr (addValue .prBodySubstrings v s) s p tag rfl rfl,
      doesCreatorSingalMatch_congr (addValue .prBodySubstrings v s) s p tag rfl]
    have mono : (doesPRSubstringSingalMatch s p tag).matched = true →
        (doesPRSubstringSingalMatch (addValue .prBodySubstrings v s) p tag).matched = true :=
      doesPRSubstringSingalMatch_mono s p tag v
    simp only [Bool.or_eq_true] at h ⊢
    rcases h with ((((h | h) | h) | h) | h) | h
    · exact Or.inl (Or.inl (Or.inl (Or.inl (Or.inl (h)))))
    · exact Or.inl (Or.inl (Or.inl (Or.inl (Or.inr (h)))))
    · exact Or.inl (Or.inl (Or.inl (Or.inr (h))))
    · exact Or.inl (Or.inl (Or.inr (mono h)))
    · exact Or.inl (Or.inr (h))
    · exact Or.inr (h)
  | branches =>
    rw [doesLabelSignalMatch_congr (addValue .branches v s) s p tag rfl,
      doesCommentSingalMatch_congr (addValue .branches v s) s p tag rfl,
      doesCommentSubstringSingalMatch_congr (addValue .branches v s) s p tag rfl,
      doesPRSubstringSingalMatch_congr (addValue .branches v s) s p tag rfl,
      doesCreatorSingalMatch_congr (addValue .branches v s) s p tag rfl]
    have mono : (doesTargetBranchSingalMatch s p tag).matched = true →
        (doesTargetBranchSingalMatch (addValue .branches v s) p tag).matched = true :=
      doesTargetBranchSingalMatch_mono_branch s p tag v
    simp only [Bool.or_eq_true] at h ⊢
    rcases h with ((((h | h) | h) | h) | h) | h
    · exact Or.inl (Or.inl (Or.inl (Or.inl (Or.inl (h)))))
    · exact Or.inl (Or.inl (Or.inl (Or.inl (Or.inr (h)))))
    · exact Or.inl (Or.inl (Or.inl (Or.inr (h))))
    · exact Or.inl (Or.inl (Or.inr (h)))
    · exact Or.inl (Or.inr (mono h))
    · exact Or.inr (h)
  | branchPatterns =>
    rw [doesLabelSignalMatch_congr (addValue .branchPatterns v s) s p tag rfl,
      doesCommentSingalMatch_congr (addValue .branchPatterns v s) s p tag rfl,
      doesCommentSubstringSingalMatch_congr (addValue .branchPatterns v s) s p tag rfl,
      doesPRSubstringSingalMatch_congr (addValue .branchPatterns v s) s p tag rfl,
      doesCreatorSingalMatch_congr (addValue .branchPatterns v s) s p tag rfl]
    have mono : (doesTargetBranchSingalMatch s p tag).matched = true →
        (doesTargetBranchSingalMatch (addValue .branchPatterns v s) p tag).matched = true :=
      doesTargetBranchSingalMatch_mono_pattern s p tag v
    simp only [Bool.or_eq_true] at h ⊢
    rcases h with ((((h | h) | h) | h) | h) | h
    · exact Or.inl (Or.inl (Or.inl (Or.inl (Or.inl (h)))))
    · exact Or.inl (Or.inl (Or.inl (Or.inl (Or.inr (h)))))
    · exact Or.inl (Or.inl (Or.inl (Or.inr (h))))
    · exact Or.inl (Or.inl (Or.inr (h)))
    · exact Or.inl (Or.inr (mono h))
    · exact Or.inr (h)
  | prCreator =>
    rw [doesLabelSignalMatch_congr (addValue .prCreator v s) s p tag rfl,
      doesCommentSingalMatch_congr (addValue .prCreator v s) s p tag rfl,
      doesCommentSubstringSingalMatch_congr (addValue .prCreator v s) s p tag rfl,
      doesPRSubstringSingalMatch_congr (addValue .prCreator v s) s p tag rfl,
      doesTargetBranchSingalMatch_congr (addValue .prCreator v s) s p tag rfl rfl]
    have mono : (doesCreatorSingalMatch s p tag).matched = true →
        (doesCreatorSingalMatch (addValue .prCreator v s) p tag).matched = true :=
      doesCreatorSingalMatch_mono s p tag v
    simp only [Bool.or_eq_true] at h ⊢
    rcases h with ((((h | h) | h) | h) | h) | h
    · exact Or.inl (Or.inl (Or.inl (Or.inl (Or.inl (h)))))
    · exact Or.inl (Or.inl (Or.inl (Or.inl (Or.inr (h)))))
    · exact Or.inl (Or.inl (Or.inl (Or.inr (h))))
    · exact Or.inl (Or.inl (Or.inr (h)))
    · exact Or.inl (Or.inr (h))
    · exact Or.inr (mono h)

/-- Witness for C5: a matching ANY-mode SignalSet (label values `["bug"]` in
the default label sub-mode) still matches after adding the label value
`"extra"`. -/
theorem c5_any_mode_monotonic_witness :
    (Matches (addValue .labelValues "extra" ⟨⟨"one", ["bug"]⟩, [], [], [], [], [], [], "one"⟩)
        ⟨"", .ok [], .ok ["bug"], "main", "x"⟩ "trigger").matched = true :=
  c5_any_mode_monotonic _ _ "trigger" "extra" _ ["bug"] [] rfl
    (fun _ => by decide) rfl rfl rfl
